import Mathlib

/-!
Verification of the swash loader backend of font-kit
(`src/loaders/swash.rs`) against its specification.

The file under `src/` is the authority for everything it implements.
The swash crate, `crate::error`, `crate::loader`, `crate::utils` and the
geometry types it calls into are not under `src/`; those are modelled
from the spec, each with a doc comment saying so.
-/

/-- Raw font bytes (`Arc<Vec<u8>>` in the source); each entry is a byte value. -/
abbrev Bytes := List Nat

/-- Modelled from the spec: big-endian `u32` read used by the missing swash
table-directory sniffing (`swash::FontRef::from_index` is external crate code,
not under `src/`). Returns `none` when fewer than four bytes are available. -/
def readU32BE (b : Bytes) (i : Nat) : Option Nat :=
  match b.get? i, b.get? (i + 1), b.get? (i + 2), b.get? (i + 3) with
  | some x0, some x1, some x2, some x3 =>
      some (((x0 * 256 + x1) * 256 + x2) * 256 + x3)
  | _, _, _, _ => none

/-- Modelled from the spec: `swash::CacheKey` derivation is external crate code,
not under `src/`. Per the spec (§3), the cache key is "a pure function of
`(bytes, table_offset)`"; we realize it as a concrete rolling hash so that it is
executable. Its exact value is opaque to every claim. -/
def cacheKey (b : Bytes) (off : Nat) : Nat :=
  b.foldl (fun h x => (h * 131 + x) % 2 ^ 64) (off + 1)

/-- Modelled from the spec: `swash::FontRef` (external crate, not under `src/`):
a borrowed view `{ data, offset, key }` into the font bytes. -/
structure FontRef where
  data : Bytes
  offset : Nat
  key : Nat
deriving DecidableEq, Repr

/-- Modelled from the spec: `swash::FontRef::from_index` is external crate code,
not under `src/`. Per the spec (§4.1) it "validates that `data` contains a
well-formed font (or font-collection) and that `font_index` is in range;
computes `table_offset` for the selected subfont and a `cache_key`". We model
the structural sniff over the standard sfnt magics: `0x00010000`, `OTTO` and
`true` are single fonts (only index 0 is in range, table offset 0), `ttcf` is a
collection whose font count sits at byte 8 and whose per-font table offsets
start at byte 12. Anything else is unrecognized and yields `none`. -/
def FontRef.from_index (data : Bytes) (index : Nat) : Option FontRef :=
  match readU32BE data 0 with
  | none => none
  | some magic =>
    if magic = 0x74746366 then
      match readU32BE data 8 with
      | none => none
      | some numFonts =>
        if index < numFonts then
          match readU32BE data (12 + 4 * index) with
          | none => none
          | some off => some ⟨data, off, cacheKey data off⟩
        else none
    else if magic = 0x00010000 ∨ magic = 0x4F54544F ∨ magic = 0x74727565 then
      if index = 0 then some ⟨data, 0, cacheKey data 0⟩ else none
    else none

/-- Modelled from the spec: `crate::error::FontLoadingError` is repository code
not under `src/`. Per the spec (§7) the font-loading family covers an
unrecognized/corrupt binary (`Parse`) and an I/O failure obtaining the bytes. -/
inductive FontLoadingError where
  | Parse
  | IoError
deriving DecidableEq, Repr

/-- Modelled from the spec: `crate::error::GlyphLoadingError` is repository code
not under `src/`. Per the spec (§7) the glyph-loading family covers an
out-of-range glyph id and backend/platform failures. -/
inductive GlyphLoadingError where
  | NoSuchGlyph
  | PlatformError
deriving DecidableEq, Repr

/-- Outcome of a Rust function returning `Result<α, ε>`, with an extra
constructor recording an aborted call (`unimplemented!()` / `expect` panics),
so that panicking control flow is visible in the embedding. -/
inductive RustResult (ε α : Type) where
  | ok : α → RustResult ε α
  | err : ε → RustResult ε α
  | panicked : String → RustResult ε α
deriving DecidableEq, Repr

/-- Outcome of a Rust function returning a plain value, which may still abort
the process (`unimplemented!()` / `expect` panics). -/
inductive PanicOr (α : Type) where
  | ok : α → PanicOr α
  | panicked : String → PanicOr α
deriving DecidableEq, Repr

/-- The loader's font handle (`struct Font` in `src/loaders/swash.rs`):
the shared immutable data, the offset to the table directory, and the cache
key copied out of the swash font reference. -/
structure Font where
  data : Bytes
  offset : Nat
  key : Nat
deriving DecidableEq, Repr

/-- `Font::from_bytes` from `src/loaders/swash.rs`: build a temporary swash
font reference for validation; on success keep the original data plus the
offset and key copied from the reference; otherwise fail with `Parse`. -/
def Font.from_bytes (data : Bytes) (index : Nat) : RustResult FontLoadingError Font :=
  match FontRef.from_index data index with
  | some font => .ok ⟨data, font.offset, font.key⟩
  | none => .err .Parse

/-- Modelled from the spec: `std::fs::File` is outside the repository. We model
an open file as its full contents plus the current read position, which is all
that `Font::from_file` observes. -/
structure File where
  contents : Bytes
  pos : Nat
deriving DecidableEq, Repr

/-- `file.seek(SeekFrom::Start(0))` from `Font::from_file`: rewind the read
position to the start of the file. -/
def File.seek_start (f : File) : File := { f with pos := 0 }

/-- Modelled from the spec: `crate::utils::slurp_file` is repository code not
under `src/`. Per the spec (§4.1) it reads "the entire file into memory"; in
this model it reads everything from the current position to the end. -/
def slurp_file (f : File) : Bytes := f.contents.drop f.pos

/-- `Font::from_file` from `src/loaders/swash.rs`: seek the file back to its
start, slurp the whole contents into memory, and delegate to `from_bytes`. -/
def Font.from_file (file : File) (font_index : Nat) : RustResult FontLoadingError Font :=
  let file := file.seek_start
  Font.from_bytes (slurp_file file) font_index

/-- `Font::as_ref` from `src/loaders/swash.rs`: rebuild the transient swash
font reference directly from the stored fields (not through a swash
constructor, so the stored cache key is reused unchanged). -/
def Font.as_ref (f : Font) : FontRef := ⟨f.data, f.offset, f.key⟩

/-- Modelled from the spec: the name-table decoding inside
`swash` (`localized_strings`) is external crate code, not under `src/`. The
spec (§4.2) only says name lookups "resolve a localized string table entry by
well-known string identifier"; the binary layout is unspecified, so we model
the parsed table as the list of `(string id, value)` records recovered from the
bytes by a simple id/length-prefixed scan. The fuel argument (initially the
byte count) only bounds recursion so the scan is structurally recursive. -/
def decodeNameRecordsAux : Nat → Bytes → List (Nat × String)
  | 0, _ => []
  | _, [] => []
  | _, [_] => []
  | fuel + 1, id :: len :: rest =>
      (id, String.mk ((rest.take len).map Char.ofNat)) ::
        decodeNameRecordsAux fuel (rest.drop len)

/-- Modelled from the spec: `localized_strings()` on a swash font reference
(external crate code, not under `src/`): the parsed localized-string table of
the subfont the reference points at. -/
def FontRef.localized_strings (r : FontRef) : List (Nat × String) :=
  decodeNameRecordsAux r.data.length (r.data.drop r.offset)

/-- Modelled from the spec: `find_by_id(id, None)` on a swash localized-string
table (external crate code, not under `src/`): the first entry with the given
well-known string identifier, or `none` when the table lacks one. The locale
preference is not modelled because the table model is locale-free. -/
def FontRef.find_by_id (table : List (Nat × String)) (id : Nat) : Option String :=
  (table.find? (fun e => e.1 == id)).map (fun e => e.2)

/-- Modelled from the spec: `swash::StringId` (external crate code, not under
`src/`): the well-known string identifiers the loader uses. -/
inductive StringId where
  | PostScript
  | Full
  | Family
deriving DecidableEq, Repr

/-- Modelled from the spec: the OpenType name ids the swash identifiers stand
for (Family = 1, Full = 4, PostScript = 6). -/
def StringId.code : StringId → Nat
  | .PostScript => 6
  | .Full => 4
  | .Family => 1

/-- `Font::find_localized_string` from `src/loaders/swash.rs`: look the id up
in the transient reference's localized-string table and convert a hit to an
owned string (the `and_then(|s| Some(s.to_string()))` step; ownership is
invisible here, so the conversion is the identity). -/
def Font.find_localized_string (f : Font) (id : StringId) : Option String :=
  (FontRef.find_by_id f.as_ref.localized_strings id.code).bind (fun s => some s)

/-- `Font::postscript_name` from `src/loaders/swash.rs`. -/
def Font.postscript_name (f : Font) : Option String :=
  f.find_localized_string StringId.PostScript

/-- `Font::full_name` from `src/loaders/swash.rs`: `.expect("Full name not
available")` aborts when the entry is absent. -/
def Font.full_name (f : Font) : PanicOr String :=
  match f.find_localized_string StringId.Full with
  | some s => .ok s
  | none => .panicked "Full name not available"

/-- `Font::family_name` from `src/loaders/swash.rs`: `.expect("Family name not
available")` aborts when the entry is absent. -/
def Font.family_name (f : Font) : PanicOr String :=
  match f.find_localized_string StringId.Family with
  | some s => .ok s
  | none => .panicked "Family name not available"

/-- Modelled from the spec: `pathfinder_geometry::vector::Vector2F` is outside
the repository. Coordinates are `f32` in the source; they are modelled as
integers, and no value of this type is ever produced by this backend (the
functions returning it abort). -/
structure Vector2F where
  x : Int
  y : Int
deriving DecidableEq, Repr

/-- Modelled from the spec: `pathfinder_geometry::rect::RectF` is outside the
repository; same coordinate caveat as `Vector2F`. -/
structure RectF where
  origin : Vector2F
  size : Vector2F
deriving DecidableEq, Repr

/-- Modelled from the spec: `crate::hinting::HintingOptions` is repository code
not under `src/`. Per the spec (§3): tagged variant over
`{None, Vertical(size), VerticalSubpixel(size), Full(size)}`; sizes are pixels
per em and play no role in this backend. -/
inductive HintingOptions where
  | none
  | vertical (size : Nat)
  | verticalSubpixel (size : Nat)
  | full (size : Nat)
deriving DecidableEq, Repr

/-- Modelled from the spec: the `crate::outline::OutlineSink` protocol is
repository code not under `src/`. Per the spec (§3) a sink receives an ordered
sequence of path events; we model an `outline` call's interaction with its sink
as the list of events it would push. -/
inductive PathEvent where
  | moveTo (p : Vector2F)
  | lineTo (p : Vector2F)
  | quadraticCurveTo (c p : Vector2F)
  | cubicCurveTo (c1 c2 p : Vector2F)
  | close
deriving DecidableEq, Repr

/-- `Font::glyph_count` from `src/loaders/swash.rs`: `unimplemented!()`. -/
def Font.glyph_count (_f : Font) : PanicOr Nat :=
  .panicked "not implemented"

/-- `Font::outline` from `src/loaders/swash.rs`: `unimplemented!()`; were it to
succeed the result would be the event list pushed into the sink. -/
def Font.outline (_f : Font) (_glyph_id : Nat) (_hinting : HintingOptions) :
    RustResult GlyphLoadingError (List PathEvent) :=
  .panicked "not implemented"

/-- `Font::typographic_bounds` from `src/loaders/swash.rs`:
`unimplemented!()`. -/
def Font.typographic_bounds (_f : Font) (_glyph_id : Nat) :
    RustResult GlyphLoadingError RectF :=
  .panicked "not implemented"

/-- `Font::advance` from `src/loaders/swash.rs`: `unimplemented!()`. -/
def Font.advance (_f : Font) (_glyph_id : Nat) :
    RustResult GlyphLoadingError Vector2F :=
  .panicked "not implemented"

/-- `Font::origin` from `src/loaders/swash.rs`: `unimplemented!()`. -/
def Font.origin (_f : Font) (_glyph_id : Nat) :
    RustResult GlyphLoadingError Vector2F :=
  .panicked "not implemented"

/-- `Font::native_font` from `src/loaders/swash.rs`: `unimplemented!()`
(`NativeFont` is `Font` itself in this backend). -/
def Font.native_font (_f : Font) : PanicOr Font :=
  .panicked "not implemented"

/-- `Font::from_native_font` from `src/loaders/swash.rs`: `unimplemented!()`. -/
def Font.from_native_font (_font : Font) : PanicOr Font :=
  .panicked "not implemented"

/-- `Font::copy_font_data` from `src/loaders/swash.rs`: clone the shared data
(always `Some`). -/
def Font.copy_font_data (f : Font) : Option Bytes :=
  some f.data

/-- Modelled from the spec: `crate::loader::FallbackResult` is repository code
not under `src/`. Per the spec (§3): an ordered candidate font list plus the
byte length of the renderable text prefix. -/
structure FallbackResult where
  fonts : List Font
  valid_len : Nat
deriving DecidableEq, Repr

/-- `Font::get_fallbacks` from `src/loaders/swash.rs`: the stub logs a warning
(a side effect outside this model) and claims the whole text with no
candidates. `text.len()` is the UTF-8 byte length, so text is passed as its
byte sequence. -/
def Font.get_fallbacks (_f : Font) (text : Bytes) (_locale : String) : FallbackResult :=
  { fonts := [], valid_len := text.length }

/-- A minimal buffer `FontRef.from_index` accepts: the TrueType sfnt magic
`0x00010000` and nothing else. -/
def validTtf : Bytes := [0, 1, 0, 0]

/-- The handle `Font.from_bytes validTtf 0` produces. -/
def exampleFont : Font := ⟨validTtf, 0, cacheKey validTtf 0⟩

/-- Every font reference `from_index` hands back keeps the input bytes
unchanged and carries the cache key derived purely from those bytes and the
selected table offset. -/
theorem FontRef.from_index_spec (b : Bytes) (i : Nat) (r : FontRef)
    (h : FontRef.from_index b i = some r) :
    r.data = b ∧ r.key = cacheKey b r.offset := by
  unfold FontRef.from_index at h
  repeat' split at h
  all_goals first
    | (cases h; exact ⟨rfl, rfl⟩)
    | exact absurd h (by simp)

/-- A successful `from_bytes` stores the input bytes unchanged and the key
copied from the swash reference, whose offset it also copies. -/
theorem Font.from_bytes_ok_shape (b : Bytes) (i : Nat) (h : Font)
    (e : Font.from_bytes b i = .ok h) :
    h.data = b ∧ h.key = cacheKey b h.offset := by
  unfold Font.from_bytes at e
  cases hf : FontRef.from_index b i with
  | none => rw [hf] at e; exact absurd e (by simp)
  | some r =>
    rw [hf] at e
    have hr := FontRef.from_index_spec b i r hf
    cases e
    exact ⟨rfl, hr.2⟩

/-- When no record in the font's localized-string table carries the requested
identifier, `find_localized_string` comes back empty. -/
theorem Font.find_localized_string_of_absent (f : Font) (id : StringId)
    (h : ∀ e ∈ f.as_ref.localized_strings, e.1 ≠ id.code) :
    f.find_localized_string id = none := by
  have hn : (f.as_ref.localized_strings).find? (fun e => e.1 == id.code) = none := by
    rw [List.find?_eq_none]
    intro e he
    simpa using h e he
  unfold Font.find_localized_string FontRef.find_by_id
  rw [hn]
  rfl

/-- C1: `from_bytes` is deterministic: whenever `from_bytes b i` succeeds, any
two successful calls on the same `(b, i)` yield the same handle, and the
handle's cache key is the pure function `cacheKey` of the bytes and the table
offset. -/
theorem Font.from_bytes_deterministic (b : Bytes) (i : Nat) (h₁ h₂ : Font)
    (e₁ : Font.from_bytes b i = .ok h₁) (e₂ : Font.from_bytes b i = .ok h₂) :
    h₁ = h₂ ∧ h₁.key = cacheKey b h₁.offset := by
  have e := e₁.symm.trans e₂
  injection e with e
  subst e
  exact ⟨rfl, (Font.from_bytes_ok_shape b i h₁ e₁).2⟩

/-- C1 witness: the minimal TrueType buffer loads, and the theorem applies to
it concretely. -/
theorem Font.from_bytes_deterministic_witness :
    Font.from_bytes validTtf 0 = .ok exampleFont ∧
    (exampleFont = exampleFont ∧ exampleFont.key = cacheKey validTtf exampleFont.offset) :=
  ⟨rfl, Font.from_bytes_deterministic validTtf 0 exampleFont exampleFont rfl rfl⟩

/-- C2: on every buffer/index the swash validation rejects, `from_bytes`
returns exactly `FontLoadingError::Parse`; it never panics and never hands back
a handle on failure. -/
theorem Font.from_bytes_malformed_parse (b : Bytes) (i : Nat)
    (h : FontRef.from_index b i = none) :
    Font.from_bytes b i = .err FontLoadingError.Parse ∧
    (∀ f : Font, Font.from_bytes b i ≠ .ok f) ∧
    (∀ msg : String, Font.from_bytes b i ≠ .panicked msg) := by
  have he : Font.from_bytes b i = .err FontLoadingError.Parse := by
    unfold Font.from_bytes
    rw [h]
  refine ⟨he, ?_, ?_⟩
  · intro f hf
    rw [he] at hf
    exact absurd hf (by simp)
  · intro msg hm
    rw [he] at hm
    exact absurd hm (by simp)

/-- C2 witness: the empty buffer is rejected, and the theorem applies to it
concretely. -/
theorem Font.from_bytes_malformed_parse_witness :
    FontRef.from_index [] 0 = none ∧
    (Font.from_bytes [] 0 = .err FontLoadingError.Parse ∧
      (∀ f : Font, Font.from_bytes [] 0 ≠ .ok f) ∧
      (∀ msg : String, Font.from_bytes [] 0 ≠ .panicked msg)) :=
  ⟨rfl, Font.from_bytes_malformed_parse [] 0 rfl⟩

/-- C3: the claim says `advance`, `origin` and `typographic_bounds` return a
glyph-loading error for out-of-range glyph ids and succeed for in-range ones;
the code instead aborts unconditionally with `unimplemented!()` for every
glyph id (as does `glyph_count` itself), so the claim fails on every input. -/
theorem Font.glyph_metrics_unimplemented_panic (f : Font) (g : Nat) :
    f.advance g = .panicked "not implemented" ∧
    f.origin g = .panicked "not implemented" ∧
    f.typographic_bounds g = .panicked "not implemented" ∧
    f.glyph_count = .panicked "not implemented" :=
  ⟨rfl, rfl, rfl, rfl⟩

/-- C4: the claim says `outline(0, HintingOptions::None, sink)` completes
without error, emitting well-formed contours; the code instead aborts with
`unimplemented!()` for every glyph id and hinting mode, emitting nothing. -/
theorem Font.outline_unimplemented_panic (f : Font) (g : Nat) (opts : HintingOptions) :
    f.outline g opts = .panicked "not implemented" :=
  rfl

/-- C5: when the localized-string table has no PostScript-name record,
`postscript_name` returns `none` — a no-match result, not an error and not a
panic. -/
theorem Font.postscript_name_absent_none (f : Font)
    (h : ∀ e ∈ f.as_ref.localized_strings, e.1 ≠ StringId.PostScript.code) :
    f.postscript_name = none :=
  Font.find_localized_string_of_absent f StringId.PostScript h

/-- C5 witness: the minimal TrueType buffer's table holds a single record with
id 0, so the PostScript id (6) is absent and the theorem applies concretely. -/
theorem Font.postscript_name_absent_none_witness :
    (∀ e ∈ exampleFont.as_ref.localized_strings, e.1 ≠ StringId.PostScript.code) ∧
    exampleFont.postscript_name = none :=
  ⟨by decide, Font.postscript_name_absent_none exampleFont (by decide)⟩

/-- C6: when the localized-string table has no Full-name (resp. Family-name)
record, `full_name` (resp. `family_name`) aborts via
`expect` rather than returning a defaulted or empty value — the stated
reference behavior. -/
theorem Font.name_absent_abort (f : Font) :
    ((∀ e ∈ f.as_ref.localized_strings, e.1 ≠ StringId.Full.code) →
      f.full_name = .panicked "Full name not available") ∧
    ((∀ e ∈ f.as_ref.localized_strings, e.1 ≠ StringId.Family.code) →
      f.family_name = .panicked "Family name not available") := by
  constructor
  · intro hFull
    have h1 := Font.find_localized_string_of_absent f StringId.Full hFull
    unfold Font.full_name
    rw [h1]
  · intro hFam
    have h2 := Font.find_localized_string_of_absent f StringId.Family hFam
    unfold Font.family_name
    rw [h2]

/-- C6 witness: the minimal TrueType buffer's table lacks both the Full id (4)
and the Family id (1), and each half of the theorem applies to it concretely
with its own absence hypothesis discharged. -/
theorem Font.name_absent_abort_witness :
    (∀ e ∈ exampleFont.as_ref.localized_strings, e.1 ≠ StringId.Full.code) ∧
    (∀ e ∈ exampleFont.as_ref.localized_strings, e.1 ≠ StringId.Family.code) ∧
    exampleFont.full_name = .panicked "Full name not available" ∧
    exampleFont.family_name = .panicked "Family name not available" :=
  ⟨by decide, by decide,
    (Font.name_absent_abort exampleFont).1 (by decide),
    (Font.name_absent_abort exampleFont).2 (by decide)⟩

/-- C7: `get_fallbacks` always claims the whole text (`valid_len = text.len()`)
with an empty candidate list, and in particular `valid_len ≤ text.len()`
always holds. -/
theorem Font.get_fallbacks_noop (f : Font) (text : Bytes) (locale : String) :
    (f.get_fallbacks text locale).valid_len = text.length ∧
    (f.get_fallbacks text locale).fonts = [] ∧
    (f.get_fallbacks text locale).valid_len ≤ text.length :=
  ⟨rfl, rfl, le_refl _⟩

/-- C8: `from_file` first seeks the file back to position 0, reads the whole
contents, and returns exactly `from_bytes` of those contents — whatever the
file's current read position was. -/
theorem Font.from_file_reads_whole_file (f : File) (i : Nat) :
    (f.seek_start).pos = 0 ∧
    slurp_file f.seek_start = f.contents ∧
    Font.from_file f i = Font.from_bytes f.contents i := by
  refine ⟨rfl, ?_, ?_⟩
  · unfold slurp_file File.seek_start
    simp
  · unfold Font.from_file slurp_file File.seek_start
    simp

/-- C9: the claim says `native_font` and `from_native_font` fail with an
explicit unsupported-by-this-backend error; the code instead aborts the
process with `unimplemented!()` on every call. -/
theorem Font.native_font_unimplemented_panic (f : Font) :
    f.native_font = .panicked "not implemented" ∧
    Font.from_native_font f = .panicked "not implemented" :=
  ⟨rfl, rfl⟩

/-- C10: whenever `from_bytes b i` succeeds with handle `h`,
`h.copy_font_data` returns `some` buffer byte-identical to `b` — loading never
mutates the input bytes and the copy is never `none`. -/
theorem Font.copy_font_data_roundtrip (b : Bytes) (i : Nat) (h : Font)
    (e : Font.from_bytes b i = .ok h) :
    h.copy_font_data = some b := by
  unfold Font.copy_font_data
  rw [(Font.from_bytes_ok_shape b i h e).1]

/-- C10 witness: the minimal TrueType buffer loads and its handle hands the
same bytes back. -/
theorem Font.copy_font_data_roundtrip_witness :
    Font.from_bytes validTtf 0 = .ok exampleFont ∧
    exampleFont.copy_font_data = some validTtf :=
  ⟨rfl, Font.copy_font_data_roundtrip validTtf 0 exampleFont rfl⟩
